import Mathlib

/-!
Shallow embedding of the request-forwarding endpoint of the MelPro
estimator widget repository (`api/ai.js` and `chat.js`).

The endpoint (`handler` in `api/ai.js`) receives a POST with a JSON body
`\x7b message: string \x7d`, validates and truncates the message, forwards it to
an upstream chat-completion API through `fetchWithRetry` (bounded retries
with exponential backoff on 429/5xx/network errors), classifies failures
into friendly messages through `friendlyError`, and answers 200 JSON on
every path except a non-POST method (405).

The embedding models JavaScript values (`JsValue`), the upstream call
outcomes as a function from call index to outcome, and the handler as a
pure function returning the HTTP response together with the number of
upstream calls made, the total backoff slept, and the payload forwarded
upstream (if any).
-/

namespace AiProxy

/-- JSON-like JavaScript values as they occur in request/response bodies.
Numbers are modelled as integers (no claim depends on float arithmetic);
an absent property (`undefined`) is modelled with `Option` at use sites. -/
inductive JsValue where
  | null
  | bool (b : Bool)
  | num (n : Int)
  | str (s : String)
  | arr (elems : List JsValue)
  | obj (fields : List (String × JsValue))

/-- Property lookup `v.key`: defined on objects, `undefined` (none) otherwise. -/
def lookupField : List (String × JsValue) → String → Option JsValue
  | [], _ => none
  | (k, v) :: rest, key => if k = key then some v else lookupField rest key

/-- `v.key` for a JavaScript value: `undefined` (none) unless `v` is an object
with the property. -/
def getField : JsValue → String → Option JsValue
  | .obj fields, key => lookupField fields key
  | _, _ => none

/-- JavaScript truthiness of a value. -/
def truthy : JsValue → Bool
  | .null => false
  | .bool b => b
  | .num n => n != 0
  | .str s => s != ""
  | .arr _ => true
  | .obj _ => true

/-- `typeof v === "string"`. -/
def isString : JsValue → Bool
  | .str _ => true
  | _ => false

/-- `String.prototype.slice(0, n)` (and array truncation): the first `n`
characters. -/
def jsSlice (s : String) (n : Nat) : String :=
  String.mk (s.data.take n)

/-- `String.prototype.trim()`: drop leading and trailing whitespace. -/
def jsTrim (s : String) : String :=
  String.mk (((s.data.dropWhile Char.isWhitespace).reverse.dropWhile Char.isWhitespace).reverse)

/-- Optional chaining `a?.key`: short-circuits on `null`/`undefined`. -/
def optField (v : Option JsValue) (key : String) : Option JsValue :=
  match v with
  | none => none
  | some .null => none
  | some w => getField w key

/-- Optional chaining `a?.[0]`: first array element, `"0"` property of an
object, first character of a string, `undefined` otherwise. -/
def optIndex0 (v : Option JsValue) : Option JsValue :=
  match v with
  | none => none
  | some .null => none
  | some (.arr []) => none
  | some (.arr (x :: _)) => some x
  | some (.str s) =>
      match s.data with
      | [] => none
      | c :: _ => some (.str (String.mk [c]))
  | some (.obj fields) => lookupField fields "0"
  | some _ => none

/-! ## Constants of `api/ai.js` (environment defaults) -/

def MODEL : String := "gpt-4o-mini"

def TEMP : ℚ := 3 / 10

def MAX_TOKENS : Nat := 350

/-- Basic guard against oversized inputs. -/
def MAX_INPUT_CHARS : Nat := 4000

def SYSTEM_PROMPT : String :=
  "You are \"Estimator Bot\" for an electrical contractor (MelPro Electrical).\nBe concise and practical. Always:\n1) Ask for any critical missing details (panel size, run distance in feet, wall type, number of fixtures, attic/crawl access).\n2) Provide: • Scope • Timeline • Ballpark range. Use bullet points.\n3) Add assumptions plainly if details are missing.\n4) End with one short call-to-action to schedule or request photos.\nKeep total output under ~180 words unless specifically asked for more."

/-! ## Fixed reply strings of `api/ai.js` -/

def AUTH_MSG : String :=
  "Auth error with the AI provider. (Owner: verify OPENAI_API_KEY in Vercel env)."

def RATE_MSG : String :=
  "We’re temporarily out of AI credits or rate-limited. Please try again shortly."

def BUSY_MSG : String :=
  "AI service is busy right now. Please try again in a moment."

def GUIDANCE_MSG : String :=
  "Please type your job details to get an estimate."

def FALLBACK_REPLY : String := "No reply from model."

def SERVER_ERROR_MSG : String := "Server error. Please try again."

def NET_ERROR_MSG : String := "Network error contacting AI."

/-- `friendlyError(status, text)`: maps upstream errors to friendly messages. -/
def friendlyError (status : Nat) (text : String) : String :=
  if status = 401 then AUTH_MSG
  else if status = 429 then RATE_MSG
  else if status ≥ 500 then BUSY_MSG
  else "Upstream error (" ++ toString status ++ "): " ++ jsSlice text 200

/-! ## The upstream call and the retry loop -/

/-- An upstream HTTP response: its status, its body as text (`resp.text()`),
and its body as JSON (`resp.json()`; `none` models a body on which JSON
parsing throws). -/
structure UpstreamResponse where
  status : Nat
  bodyText : String
  jsonBody : Option JsValue

/-- The outcome of one `fetch` call: a response, or a thrown network error. -/
inductive FetchOutcome where
  | success (r : UpstreamResponse)
  | netError (msg : String)

/-- `r.ok`: status in the 2xx range. -/
def respOk (status : Nat) : Bool :=
  200 ≤ status && status ≤ 299

/-- The retriable statuses of `fetchWithRetry`:
`r.status === 429 || (r.status >= 500 && r.status < 600)`. -/
def retriableStatus (status : Nat) : Bool :=
  status == 429 || (500 ≤ status && status < 600)

/-- Result of `fetchWithRetry`: the returned response or the thrown error
message, together with the number of `fetch` calls made and the total
backoff slept (ms). -/
structure RetryResult where
  result : Except String UpstreamResponse
  calls : Nat
  backoffMs : Nat

/-- The `while (attempt <= tries)` loop of `fetchWithRetry`, with
`fuel = tries + 1 - attempt` making the recursion structural. `outcomes k`
is the outcome of the `k`-th `fetch` call; inside the loop the number of
calls already made always equals `attempt`. -/
def retryLoop (outcomes : Nat → FetchOutcome) :
    Nat → Nat → Option String → Nat → RetryResult
  | 0, attempt, lastErr, slept =>
      { result := .error (lastErr.getD NET_ERROR_MSG),
        calls := attempt, backoffMs := slept }
  | fuel + 1, attempt, lastErr, slept =>
      match outcomes attempt with
      | .success r =>
          if respOk r.status then
            { result := .ok r, calls := attempt + 1, backoffMs := slept }
          else if retriableStatus r.status then
            retryLoop outcomes fuel (attempt + 1) lastErr (slept + 600 * 2 ^ attempt)
          else
            { result := .ok r, calls := attempt + 1, backoffMs := slept }
      | .netError e =>
          retryLoop outcomes fuel (attempt + 1) (some e) (slept + 600 * 2 ^ attempt)

/-- `fetchWithRetry(url, opts, tries)`: starts at `attempt = 0`,
`lastErr = null`, and loops while `attempt <= tries`. -/
def fetchWithRetry (outcomes : Nat → FetchOutcome) (tries : Nat) : RetryResult :=
  retryLoop outcomes (tries + 1) 0 none 0

/-! ## The handler -/

structure ChatMessage where
  role : String
  content : String

/-- The upstream chat-completion payload built by the handler. -/
structure ChatPayload where
  model : String
  temperature : ℚ
  maxTokens : Nat
  messages : List ChatMessage

inductive ResponseBody where
  | text (s : String)
  | json (v : JsValue)

structure HttpResponse where
  status : Nat
  headers : List (String × String)
  body : ResponseBody

structure HttpRequest where
  method : String
  body : Option JsValue

/-- What one invocation of the handler produced: the HTTP response, the
number of upstream calls, the total backoff slept, and the payload sent
upstream (`none` when no upstream call was attempted). -/
structure HandlerResult where
  response : HttpResponse
  upstreamCalls : Nat
  backoffMs : Nat
  forwarded : Option ChatPayload

/-- `res.status(200).json(\x7b reply \x7d)`. -/
def jsonReply (reply : String) : HttpResponse :=
  { status := 200, headers := [], body := .json (.obj [("reply", .str reply)]) }

/-- `req.body || \x7b\x7d`. -/
def effectiveBody (body : Option JsValue) : JsValue :=
  match body with
  | some v => if truthy v then v else .obj []
  | none => .obj []

/-- `data?.choices?.[0]?.message?.content`. -/
def contentPath (data : JsValue) : Option JsValue :=
  optField (optField (optIndex0 (optField (some data) "choices")) "message") "content"

/-- `data?.choices?.[0]?.message?.content?.trim() || 'No reply from model.'`:
`undefined`/`null` content falls through to the fallback, a string is
trimmed (an all-whitespace string is falsy after trimming, hence also the
fallback), and `.trim()` on any other value throws a `TypeError`. -/
def extractReply (data : JsValue) : Except Unit String :=
  match contentPath data with
  | none => .ok FALLBACK_REPLY
  | some .null => .ok FALLBACK_REPLY
  | some (.str s) => .ok (if jsTrim s = "" then FALLBACK_REPLY else jsTrim s)
  | some _ => .error ()

/-- `data?.usage || null`. -/
def usageValue (data : JsValue) : JsValue :=
  match getField data "usage" with
  | some u => if truthy u then u else .null
  | none => .null

/-- The POST path of the handler once `message` is known to be a non-empty
string: trim and truncate, build the payload, call `fetchWithRetry` with
2 retries, then classify a failing response / extract the reply from a
successful one; a thrown error (exhausted retries, unparsable JSON body,
`.trim()` on a non-string) is caught and answered as
`SERVER_ERROR_MSG`. -/
def handleMessage (s : String) (outcomes : Nat → FetchOutcome) : HandlerResult :=
  let trimmed := jsSlice (jsTrim s) MAX_INPUT_CHARS
  let payload : ChatPayload :=
    { model := MODEL, temperature := TEMP, maxTokens := MAX_TOKENS,
      messages := [{ role := "system", content := SYSTEM_PROMPT },
                   { role := "user", content := trimmed }] }
  let rr := fetchWithRetry outcomes 2
  match rr.result with
  | .error _ =>
      { response := jsonReply SERVER_ERROR_MSG,
        upstreamCalls := rr.calls, backoffMs := rr.backoffMs, forwarded := some payload }
  | .ok resp =>
      if respOk resp.status then
        match resp.jsonBody with
        | none =>
            { response := jsonReply SERVER_ERROR_MSG,
              upstreamCalls := rr.calls, backoffMs := rr.backoffMs, forwarded := some payload }
        | some data =>
            match extractReply data with
            | .error _ =>
                { response := jsonReply SERVER_ERROR_MSG,
                  upstreamCalls := rr.calls, backoffMs := rr.backoffMs,
                  forwarded := some payload }
            | .ok reply =>
                { response :=
                    { status := 200, headers := [],
                      body := .json (.obj [("reply", .str reply),
                                           ("usage", usageValue data)]) },
                  upstreamCalls := rr.calls, backoffMs := rr.backoffMs,
                  forwarded := some payload }
      else
        { response := jsonReply (friendlyError resp.status resp.bodyText),
          upstreamCalls := rr.calls, backoffMs := rr.backoffMs, forwarded := some payload }

/-- The exported handler of `api/ai.js`. A non-POST method answers 405 with
`Allow: POST`; a missing, falsy (empty-string) or non-string `message`
answers the guidance reply without any upstream call; otherwise the message
is processed by `handleMessage`. -/
def handler (req : HttpRequest) (outcomes : Nat → FetchOutcome) : HandlerResult :=
  if req.method ≠ "POST" then
    { response := { status := 405, headers := [("Allow", "POST")],
                    body := .text "Method Not Allowed" },
      upstreamCalls := 0, backoffMs := 0, forwarded := none }
  else
    match getField (effectiveBody req.body) "message" with
    | some (.str s) =>
        if s = "" then
          { response := jsonReply GUIDANCE_MSG,
            upstreamCalls := 0, backoffMs := 0, forwarded := none }
        else
          handleMessage s outcomes
    | _ =>
        { response := jsonReply GUIDANCE_MSG,
          upstreamCalls := 0, backoffMs := 0, forwarded := none }

/-! ## Observation helpers -/

/-- A POST request whose JSON body is `\x7b "message": msg \x7d`. -/
def postReq (msg : String) : HttpRequest :=
  { method := "POST", body := some (.obj [("message", .str msg)]) }

/-- The `reply` field of the handler's JSON response. -/
def replyOf (h : HandlerResult) : Option JsValue :=
  match h.response.body with
  | .json v => getField v "reply"
  | .text _ => none

/-- The `usage` field of the handler's JSON response. -/
def usageOf (h : HandlerResult) : Option JsValue :=
  match h.response.body with
  | .json v => getField v "usage"
  | .text _ => none

/-- The content of the `user` message of a forwarded payload. -/
def userContent (p : ChatPayload) : String :=
  match p.messages with
  | [_, u] => u.content
  | _ => ""

/-- The user content forwarded upstream by an invocation, if any. -/
def forwardedUserContent (h : HandlerResult) : Option String :=
  h.forwarded.map userContent

/-- An outcome the retry loop retries on: an HTTP response with a
non-2xx, 429-or-5xx status, or a thrown network error. -/
def retriableOutcome : FetchOutcome → Bool
  | .success r => !respOk r.status && retriableStatus r.status
  | .netError _ => true

/-! ## Helper lemmas about the retry loop and the handler -/

theorem handler_post_eq (s : String) (outcomes : Nat → FetchOutcome) (hs : s ≠ "") :
    handler (postReq s) outcomes = handleMessage s outcomes := by
  simp [handler, postReq, effectiveBody, truthy, getField, lookupField, hs]

theorem retryLoop_calls_exhaust (outcomes : Nat → FetchOutcome)
    (h : ∀ k, retriableOutcome (outcomes k) = true) :
    ∀ fuel attempt lastErr slept,
      (retryLoop outcomes fuel attempt lastErr slept).calls = attempt + fuel := by
  intro fuel
  induction fuel with
  | zero => intro attempt lastErr slept; simp [retryLoop]
  | succ n ih =>
      intro attempt lastErr slept
      have hr := h attempt
      cases hout : outcomes attempt with
      | success r =>
          rw [hout] at hr
          simp only [retriableOutcome, Bool.and_eq_true, Bool.not_eq_true'] at hr
          simp [retryLoop, hout, hr.1, hr.2, ih]
          omega
      | netError e =>
          simp [retryLoop, hout, ih]
          omega

theorem retryLoop_result_exhaust (outcomes : Nat → FetchOutcome)
    (h : ∀ k, retriableOutcome (outcomes k) = true) :
    ∀ fuel attempt lastErr slept,
      ∃ e, (retryLoop outcomes fuel attempt lastErr slept).result = .error e := by
  intro fuel
  induction fuel with
  | zero => intro attempt lastErr slept; exact ⟨_, rfl⟩
  | succ n ih =>
      intro attempt lastErr slept
      have hr := h attempt
      cases hout : outcomes attempt with
      | success r =>
          rw [hout] at hr
          simp only [retriableOutcome, Bool.and_eq_true, Bool.not_eq_true'] at hr
          simp [retryLoop, hout, hr.1, hr.2]
          exact ih _ _ _
      | netError e =>
          simp [retryLoop, hout]
          exact ih _ _ _

theorem retryLoop_prefix_ok (outcomes : Nat → FetchOutcome) (r : UpstreamResponse)
    (hok : respOk r.status = true) :
    ∀ j fuel attempt lastErr slept, j < fuel →
      (∀ k, k < j → retriableOutcome (outcomes (attempt + k)) = true) →
      outcomes (attempt + j) = .success r →
      retryLoop outcomes fuel attempt lastErr slept =
        { result := .ok r, calls := attempt + j + 1,
          backoffMs := slept + ∑ i in Finset.range j, 600 * 2 ^ (attempt + i) } := by
  intro j
  induction j with
  | zero =>
      intro fuel attempt lastErr slept hjf hpre hsucc
      cases fuel with
      | zero => omega
      | succ f =>
          rw [Nat.add_zero] at hsucc
          simp [retryLoop, hsucc, hok]
  | succ j ih =>
      intro fuel attempt lastErr slept hjf hpre hsucc
      cases fuel with
      | zero => omega
      | succ f =>
          have hpre0 := hpre 0 (Nat.succ_pos j)
          rw [Nat.add_zero] at hpre0
          have hpre' : ∀ k, k < j → retriableOutcome (outcomes (attempt + 1 + k)) = true := by
            intro k hk
            have := hpre (k + 1) (by omega)
            rwa [show attempt + (k + 1) = attempt + 1 + k by omega] at this
          have hsucc' : outcomes (attempt + 1 + j) = .success r := by
            rwa [show attempt + 1 + j = attempt + (j + 1) by omega]
          have hsum : slept + ∑ i in Finset.range (j + 1), 600 * 2 ^ (attempt + i) =
              slept + 600 * 2 ^ attempt + ∑ i in Finset.range j, 600 * 2 ^ (attempt + 1 + i) := by
            rw [Finset.sum_range_succ']
            have hcongr : ∀ i ∈ Finset.range j,
                600 * 2 ^ (attempt + (i + 1)) = 600 * 2 ^ (attempt + 1 + i) := by
              intro i _
              rw [show attempt + (i + 1) = attempt + 1 + i by omega]
            rw [Finset.sum_congr rfl hcongr]
            simp only [Nat.add_zero]
            omega
          cases hout : outcomes attempt with
          | success r0 =>
              rw [hout] at hpre0
              simp only [retriableOutcome, Bool.and_eq_true, Bool.not_eq_true'] at hpre0
              simp only [retryLoop, hout, hpre0.1, hpre0.2, Bool.false_eq_true, if_false, if_true]
              rw [ih f (attempt + 1) lastErr (slept + 600 * 2 ^ attempt) (by omega) hpre' hsucc']
              rw [hsum]
              congr 1
              omega
          | netError e =>
              simp only [retryLoop, hout]
              rw [ih f (attempt + 1) (some e) (slept + 600 * 2 ^ attempt) (by omega) hpre' hsucc']
              rw [hsum]
              congr 1
              omega

theorem fetchWithRetry_first_ok (outcomes : Nat → FetchOutcome) (r : UpstreamResponse)
    (h0 : outcomes 0 = .success r) (hok : respOk r.status = true) (tries : Nat) :
    fetchWithRetry outcomes tries = { result := .ok r, calls := 1, backoffMs := 0 } := by
  simp [fetchWithRetry, retryLoop, h0, hok]

theorem fetchWithRetry_first_terminal (outcomes : Nat → FetchOutcome) (r : UpstreamResponse)
    (h0 : outcomes 0 = .success r) (hok : respOk r.status = false)
    (hretr : retriableStatus r.status = false) (tries : Nat) :
    fetchWithRetry outcomes tries = { result := .ok r, calls := 1, backoffMs := 0 } := by
  simp [fetchWithRetry, retryLoop, h0, hok, hretr]

/-! ## Claim theorems -/

/-- Upstream behaviour in which every attempt answers HTTP 500. -/
def all500 : Nat → FetchOutcome :=
  fun _ => .success { status := 500, bodyText := "upstream exploded", jsonBody := none }

/-- C1: when every upstream attempt answers status 500 and the retry budget
(2 retries) is exhausted, the code does NOT classify the last failing
response: `fetchWithRetry` falls out of its loop with `lastErr` still null
and throws the generic network error, so the handler's catch block answers
200 with the generic server-error reply, not the "service busy" message of
`friendlyError`. Exactly `maxRetries + 1 = 3` upstream calls are made. -/
theorem repeated_500_returns_generic_server_error :
    fetchWithRetry all500 2 =
      { result := .error NET_ERROR_MSG, calls := 3, backoffMs := 4200 } ∧
    (handler (postReq "hi") all500).response.status = 200 ∧
    (handler (postReq "hi") all500).upstreamCalls = 3 ∧
    replyOf (handler (postReq "hi") all500) = some (.str SERVER_ERROR_MSG) ∧
    replyOf (handler (postReq "hi") all500) ≠ some (.str BUSY_MSG) := by
  refine ⟨rfl, rfl, rfl, rfl, ?_⟩
  have hrw : replyOf (handler (postReq "hi") all500) = some (.str SERVER_ERROR_MSG) := rfl
  rw [hrw]
  intro h
  injection h with h1
  injection h1 with h2
  exact absurd h2 (by decide)

/-- C2: when every upstream outcome is a retriable failure (429, 5xx, or a
thrown network error), `fetchWithRetry` makes exactly `tries + 1` calls,
and the handler (which passes `tries = 2`) makes exactly 3 upstream
calls. -/
theorem all_retriable_exhausts_budget (outcomes : Nat → FetchOutcome)
    (h : ∀ k, retriableOutcome (outcomes k) = true) :
    (∀ tries, (fetchWithRetry outcomes tries).calls = tries + 1) ∧
    (∀ s : String, s ≠ "" → (handler (postReq s) outcomes).upstreamCalls = 3) := by
  constructor
  · intro tries
    rw [fetchWithRetry, retryLoop_calls_exhaust outcomes h]
    omega
  · intro s hs
    rw [handler_post_eq s outcomes hs]
    obtain ⟨e, he⟩ := retryLoop_result_exhaust outcomes h 3 0 none 0
    have hcalls := retryLoop_calls_exhaust outcomes h 3 0 none 0
    simp only [handleMessage, fetchWithRetry] at *
    rw [show (2 : Nat) + 1 = 3 from rfl]
    rw [he]
    simpa using hcalls

/-- C2 witness: with every call a thrown network error, 3 calls are made. -/
def w2outcomes : Nat → FetchOutcome := fun _ => .netError "connection reset"

theorem all_retriable_exhausts_budget_witness :
    (fetchWithRetry w2outcomes 2).calls = 3 ∧
    (handler (postReq "go") w2outcomes).upstreamCalls = 3 := by
  have h := all_retriable_exhausts_budget w2outcomes (fun k => rfl)
  exact ⟨h.1 2, h.2 "go" (by decide)⟩

/-- C3: a first upstream response whose status is neither 2xx nor 429 nor
5xx terminates the loop at once (one call, no backoff), and when that
status is 401 the handler answers 200 with the authentication friendly
message after exactly one upstream call. -/
theorem nonretriable_terminates_immediately (r : UpstreamResponse)
    (outcomes : Nat → FetchOutcome) (h0 : outcomes 0 = .success r)
    (hok : respOk r.status = false) (hretr : retriableStatus r.status = false) :
    (∀ tries, fetchWithRetry outcomes tries =
      { result := .ok r, calls := 1, backoffMs := 0 }) ∧
    (r.status = 401 → ∀ s : String, s ≠ "" →
      (handler (postReq s) outcomes).response.status = 200 ∧
      replyOf (handler (postReq s) outcomes) = some (.str AUTH_MSG) ∧
      (handler (postReq s) outcomes).upstreamCalls = 1) := by
  have hfetch := fun tries => fetchWithRetry_first_terminal outcomes r h0 hok hretr tries
  refine ⟨hfetch, ?_⟩
  intro h401 s hs
  rw [handler_post_eq s outcomes hs]
  have hfr : friendlyError r.status r.bodyText = AUTH_MSG := by
    simp [friendlyError, h401]
  simp [handleMessage, hfetch 2, hok, hfr, replyOf, jsonReply, getField, lookupField]

/-- C3 witness behaviour: a single 401 response. -/
def w3resp : UpstreamResponse :=
  { status := 401, bodyText := "Unauthorized", jsonBody := none }

def w3outcomes : Nat → FetchOutcome := fun _ => .success w3resp

theorem nonretriable_terminates_immediately_witness :
    fetchWithRetry w3outcomes 2 = { result := .ok w3resp, calls := 1, backoffMs := 0 } ∧
    (handler (postReq "hi") w3outcomes).response.status = 200 ∧
    replyOf (handler (postReq "hi") w3outcomes) = some (.str AUTH_MSG) ∧
    (handler (postReq "hi") w3outcomes).upstreamCalls = 1 := by
  have h := nonretriable_terminates_immediately w3resp w3outcomes rfl rfl rfl
  obtain ⟨ha, hb, hc⟩ := h.2 rfl "hi" (by decide)
  exact ⟨h.1 2, ha, hb, hc⟩

/-- C4: when the first `j` outcomes are retriable failures and outcome `j`
is a 2xx response, the backoff slept before the retry at attempt counter
`i` is `600 * 2 ^ i`, so the total backoff is the doubling sum
`∑ i < j, 600 * 2 ^ i` (600ms, 1200ms, 2400ms, …); in particular the
handler (retry budget 2) answers the successful reply with that total
backoff. -/
theorem backoff_doubles_per_attempt (outcomes : Nat → FetchOutcome) (j : Nat)
    (r : UpstreamResponse)
    (hpre : ∀ k, k < j → retriableOutcome (outcomes k) = true)
    (hsucc : outcomes j = .success r) (hok : respOk r.status = true) :
    (∀ tries, j ≤ tries → fetchWithRetry outcomes tries =
      { result := .ok r, calls := j + 1,
        backoffMs := ∑ i in Finset.range j, 600 * 2 ^ i }) ∧
    (j ≤ 2 → ∀ s : String, s ≠ "" → ∀ data reply,
      r.jsonBody = some data → extractReply data = .ok reply →
      (handler (postReq s) outcomes).backoffMs = ∑ i in Finset.range j, 600 * 2 ^ i ∧
      replyOf (handler (postReq s) outcomes) = some (.str reply) ∧
      (handler (postReq s) outcomes).response.status = 200) := by
  have hfetch : ∀ tries, j ≤ tries → fetchWithRetry outcomes tries =
      { result := .ok r, calls := j + 1,
        backoffMs := ∑ i in Finset.range j, 600 * 2 ^ i } := by
    intro tries htries
    have := retryLoop_prefix_ok outcomes r hok j (tries + 1) 0 none 0 (by omega)
      (by simpa using hpre) (by simpa using hsucc)
    simpa [fetchWithRetry] using this
  refine ⟨hfetch, ?_⟩
  intro hj2 s hs data reply hdata hreply
  rw [handler_post_eq s outcomes hs]
  simp [handleMessage, hfetch 2 hj2, hok, hdata, hreply, replyOf, getField, lookupField]

/-- C4 witness behaviour: a 429 then a 200 whose body carries the reply
text "All good". -/
def w4data : JsValue :=
  .obj [("choices", .arr [.obj [("message", .obj [("content", .str "All good")])]])]

def w4resp : UpstreamResponse :=
  { status := 200, bodyText := "", jsonBody := some w4data }

def w4outcomes : Nat → FetchOutcome
  | 0 => .success { status := 429, bodyText := "slow down", jsonBody := none }
  | _ + 1 => .success w4resp

theorem backoff_doubles_per_attempt_witness :
    fetchWithRetry w4outcomes 2 = { result := .ok w4resp, calls := 2, backoffMs := 600 } ∧
    (handler (postReq "hi") w4outcomes).backoffMs = 600 ∧
    replyOf (handler (postReq "hi") w4outcomes) = some (.str "All good") ∧
    (handler (postReq "hi") w4outcomes).response.status = 200 := by
  have hpre : ∀ k, k < 1 → retriableOutcome (w4outcomes k) = true := by
    intro k hk
    have hk0 : k = 0 := by omega
    subst hk0
    rfl
  have h := backoff_doubles_per_attempt w4outcomes 1 w4resp hpre rfl rfl
  have hsum : (∑ i in Finset.range 1, 600 * 2 ^ i) = 600 := by simp
  obtain ⟨ha, hb, hc⟩ := h.2 (by omega) "hi" (by decide) w4data "All good" rfl (by rfl)
  rw [hsum] at ha
  refine ⟨?_, ha, hb, hc⟩
  have h1 := h.1 2 (by omega)
  rw [hsum] at h1
  exact h1

/-- C5: a POST whose body has no `message` field, or whose `message` is
null or not a string, is answered 200 with the guidance reply, with no
upstream call and nothing forwarded. -/
theorem invalid_message_guidance (body : Option JsValue) (outcomes : Nat → FetchOutcome)
    (h : ∀ v, getField (effectiveBody body) "message" = some v →
      v = JsValue.null ∨ isString v = false) :
    (handler { method := "POST", body := body } outcomes).response.status = 200 ∧
    replyOf (handler { method := "POST", body := body } outcomes) =
      some (.str GUIDANCE_MSG) ∧
    (handler { method := "POST", body := body } outcomes).upstreamCalls = 0 ∧
    (handler { method := "POST", body := body } outcomes).forwarded = none := by
  cases hm : getField (effectiveBody body) "message" with
  | none =>
      simp only [handler, hm]
      simp [replyOf, jsonReply, getField, lookupField]
  | some v =>
      rcases h v hm with hnull | hnstr
      · subst hnull
        simp only [handler, hm]
        simp [replyOf, jsonReply, getField, lookupField]
      · cases v with
        | str s => simp [isString] at hnstr
        | null =>
            simp only [handler, hm]
            simp [replyOf, jsonReply, getField, lookupField]
        | bool b =>
            simp only [handler, hm]
            simp [replyOf, jsonReply, getField, lookupField]
        | num n =>
            simp only [handler, hm]
            simp [replyOf, jsonReply, getField, lookupField]
        | arr elems =>
            simp only [handler, hm]
            simp [replyOf, jsonReply, getField, lookupField]
        | obj fields =>
            simp only [handler, hm]
            simp [replyOf, jsonReply, getField, lookupField]

/-- C5 witness behaviour: a body whose `message` is null. -/
def w5body : Option JsValue := some (.obj [("message", JsValue.null)])

def w5outcomes : Nat → FetchOutcome := fun _ => .netError "unreachable"

theorem invalid_message_guidance_witness :
    (handler { method := "POST", body := w5body } w5outcomes).response.status = 200 ∧
    replyOf (handler { method := "POST", body := w5body } w5outcomes) =
      some (.str GUIDANCE_MSG) ∧
    (handler { method := "POST", body := w5body } w5outcomes).upstreamCalls = 0 ∧
    (handler { method := "POST", body := w5body } w5outcomes).forwarded = none := by
  have h : ∀ v, getField (effectiveBody w5body) "message" = some v →
      v = JsValue.null ∨ isString v = false := by
    intro v hv
    have hv' : some JsValue.null = some v := hv
    injection hv' with hv''
    exact Or.inl hv''.symm
  exact invalid_message_guidance w5body w5outcomes h

/-- C6: whenever the handler forwards a payload upstream, the user content
of that payload is the message trimmed of surrounding whitespace and
truncated to `MAX_INPUT_CHARS`, and its length never exceeds
`MAX_INPUT_CHARS`. -/
theorem forwarded_message_trimmed_truncated (s : String) (outcomes : Nat → FetchOutcome)
    (hs : s ≠ "") :
    forwardedUserContent (handler (postReq s) outcomes) =
      some (jsSlice (jsTrim s) MAX_INPUT_CHARS) ∧
    (∀ t, forwardedUserContent (handler (postReq s) outcomes) = some t →
      t.length ≤ MAX_INPUT_CHARS) := by
  have hfwd : forwardedUserContent (handler (postReq s) outcomes) =
      some (jsSlice (jsTrim s) MAX_INPUT_CHARS) := by
    rw [handler_post_eq s outcomes hs]
    simp only [handleMessage]
    cases hres : (fetchWithRetry outcomes 2).result with
    | error e => simp [forwardedUserContent, userContent, hres]
    | ok resp =>
        cases hok : respOk resp.status with
        | false => simp [forwardedUserContent, userContent, hres, hok]
        | true =>
            cases hjb : resp.jsonBody with
            | none => simp [forwardedUserContent, userContent, hres, hok, hjb]
            | some data =>
                cases her : extractReply data with
                | error u => simp [forwardedUserContent, userContent, hres, hok, hjb, her]
                | ok reply => simp [forwardedUserContent, userContent, hres, hok, hjb, her]
  refine ⟨hfwd, ?_⟩
  intro t ht
  rw [hfwd] at ht
  injection ht with ht'
  subst ht'
  show (List.take MAX_INPUT_CHARS (jsTrim s).data).length ≤ MAX_INPUT_CHARS
  rw [List.length_take]
  exact Nat.min_le_left _ _

/-- C6 witness behaviour. -/
def w6outcomes : Nat → FetchOutcome := fun _ => .netError "down"

theorem forwarded_message_trimmed_truncated_witness :
    forwardedUserContent (handler (postReq "  fix outlet  ") w6outcomes) =
      some "fix outlet" ∧
    (String.length "fix outlet") ≤ MAX_INPUT_CHARS := by
  have h := forwarded_message_trimmed_truncated "  fix outlet  " w6outcomes (by decide)
  have heq : jsSlice (jsTrim "  fix outlet  ") MAX_INPUT_CHARS = "fix outlet" := by decide
  refine ⟨heq ▸ h.1, ?_⟩
  exact h.2 "fix outlet" (heq ▸ h.1)

/-- C7: `friendlyError` classifies in order: 401 to the authentication
message, then 429 to the rate-limit message, then any status at least 500
to the busy message, and every other status to
`"Upstream error (status): "` followed by at most the first 200 characters
of the body text. -/
theorem friendlyError_classification (status : Nat) (text : String) :
    (status = 401 → friendlyError status text = AUTH_MSG) ∧
    (status ≠ 401 → status = 429 → friendlyError status text = RATE_MSG) ∧
    (status ≠ 401 → status ≠ 429 → 500 ≤ status → friendlyError status text = BUSY_MSG) ∧
    (status ≠ 401 → status ≠ 429 → status < 500 →
      friendlyError status text =
        "Upstream error (" ++ toString status ++ "): " ++ jsSlice text 200 ∧
      (jsSlice text 200).length ≤ 200) := by
  refine ⟨?_, ?_, ?_, ?_⟩
  · intro h1
    simp [friendlyError, h1]
  · intro h1 h2
    simp [friendlyError, h1, h2]
  · intro h1 h2 h3
    simp [friendlyError, h1, h2, h3]
  · intro h1 h2 h3
    constructor
    · simp [friendlyError, h1, h2, Nat.not_le.mpr h3]
    · show (List.take 200 text.data).length ≤ 200
      rw [List.length_take]
      exact Nat.min_le_left _ _

theorem friendlyError_classification_witness :
    friendlyError 401 "x" = AUTH_MSG ∧
    friendlyError 429 "x" = RATE_MSG ∧
    friendlyError 503 "x" = BUSY_MSG ∧
    friendlyError 400 "bad request body" = "Upstream error (400): bad request body" := by
  refine ⟨(friendlyError_classification 401 "x").1 rfl,
    (friendlyError_classification 429 "x").2.1 (by decide) rfl,
    (friendlyError_classification 503 "x").2.2.1 (by decide) (by decide) (by omega), ?_⟩
  have h := ((friendlyError_classification 400 "bad request body").2.2.2
    (by decide) (by decide) (by omega)).1
  rw [h]
  decide

/-- C8: a successful (2xx) upstream response whose JSON body has no
`choices[0].message.content` path makes the handler answer 200 with the
fallback reply "No reply from model." (no exception escapes). -/
theorem missing_reply_field_fallback (outcomes : Nat → FetchOutcome) (s : String)
    (r : UpstreamResponse) (data : JsValue)
    (hs : s ≠ "") (h0 : outcomes 0 = .success r) (hok : respOk r.status = true)
    (hjson : r.jsonBody = some data) (hnone : contentPath data = none) :
    (handler (postReq s) outcomes).response.status = 200 ∧
    replyOf (handler (postReq s) outcomes) = some (.str FALLBACK_REPLY) := by
  have hfetch := fetchWithRetry_first_ok outcomes r h0 hok 2
  have hex : extractReply data = .ok FALLBACK_REPLY := by
    simp [extractReply, hnone]
  rw [handler_post_eq s outcomes hs]
  simp [handleMessage, hfetch, hok, hjson, hex, replyOf, getField, lookupField]

/-- C8 witness behaviour: a 200 response whose body is an empty object. -/
def w8resp : UpstreamResponse :=
  { status := 200, bodyText := "", jsonBody := some (.obj []) }

def w8outcomes : Nat → FetchOutcome := fun _ => .success w8resp

theorem missing_reply_field_fallback_witness :
    (handler (postReq "hi") w8outcomes).response.status = 200 ∧
    replyOf (handler (postReq "hi") w8outcomes) = some (.str FALLBACK_REPLY) := by
  exact missing_reply_field_fallback w8outcomes "hi" w8resp (.obj [])
    (by decide) rfl rfl rfl rfl

/-- C9: the handler's response status is 200 on every POST request, whatever
the upstream does; a non-POST method is the single exception and is
answered 405 with header `Allow: POST`. -/
theorem endpoint_always_200 (req : HttpRequest) (outcomes : Nat → FetchOutcome) :
    (req.method = "POST" → (handler req outcomes).response.status = 200) ∧
    (req.method ≠ "POST" →
      (handler req outcomes).response.status = 405 ∧
      (handler req outcomes).response.headers = [("Allow", "POST")]) := by
  have h200 : ∀ s, (handleMessage s outcomes).response.status = 200 := by
    intro s
    simp only [handleMessage]
    cases hres : (fetchWithRetry outcomes 2).result with
    | error e => simp [hres, jsonReply]
    | ok resp =>
        cases hok : respOk resp.status with
        | false => simp [hres, hok, jsonReply]
        | true =>
            cases hjb : resp.jsonBody with
            | none => simp [hres, hok, hjb, jsonReply]
            | some data =>
                cases her : extractReply data with
                | error u => simp [hres, hok, hjb, her, jsonReply]
                | ok reply => simp [hres, hok, hjb, her, jsonReply]
  constructor
  · intro h
    simp only [handler, h]
    rw [if_neg (by simp)]
    cases hm : getField (effectiveBody req.body) "message" with
    | none => simp [jsonReply]
    | some v =>
        cases v with
        | str s =>
            by_cases hempty : s = ""
            · simp [hempty, jsonReply]
            · simp [hempty, h200 s]
        | null => simp [jsonReply]
        | bool b => simp [jsonReply]
        | num n => simp [jsonReply]
        | arr elems => simp [jsonReply]
        | obj fields => simp [jsonReply]
  · intro h
    simp [handler, h]

/-- C9 witness: a GET is answered 405 with `Allow: POST`; a POST (here with
an upstream network failure) is answered 200. -/
def w9outcomes : Nat → FetchOutcome := fun _ => .netError "offline"

theorem endpoint_always_200_witness :
    (handler (postReq "hello") w9outcomes).response.status = 200 ∧
    (handler { method := "GET", body := none } w9outcomes).response.status = 405 ∧
    (handler { method := "GET", body := none } w9outcomes).response.headers =
      [("Allow", "POST")] := by
  have h1 := (endpoint_always_200 (postReq "hello") w9outcomes).1 rfl
  have h2 := (endpoint_always_200 { method := "GET", body := none } w9outcomes).2 (by decide)
  exact ⟨h1, h2.1, h2.2⟩

/-- C10 counterexample data: a successful upstream body whose `usage` field
is present but falsy (the number 0). -/
def c10data : JsValue :=
  .obj [("choices", .arr [.obj [("message", .obj [("content", .str "Hello")])]]),
        ("usage", .num 0)]

def c10outcomes : Nat → FetchOutcome :=
  fun _ => .success { status := 200, bodyText := "", jsonBody := some c10data }

/-- C10 counterexample: the upstream body carries `usage: 0`, a present
field, yet the handler's response carries `usage: null` — `data?.usage ||
null` tests truthiness, not presence, so the claim "equals the upstream
usage when present" fails at this input. -/
theorem usage_falsy_replaced_by_null :
    getField c10data "usage" = some (JsValue.num 0) ∧
    usageOf (handler (postReq "hi") c10outcomes) = some JsValue.null ∧
    some JsValue.null ≠ some (JsValue.num 0) := by
  refine ⟨rfl, rfl, ?_⟩
  intro h
  injection h with h1
  exact JsValue.noConfusion h1

/-- C10 (amended): on every successful, parsable request the response body
always contains a `usage` key; it equals the upstream `usage` value when
that value is present and truthy, and is null when the `usage` field is
absent or falsy. -/
theorem usage_always_present (outcomes : Nat → FetchOutcome) (s : String)
    (r : UpstreamResponse) (data : JsValue) (reply : String)
    (hs : s ≠ "") (h0 : outcomes 0 = .success r) (hok : respOk r.status = true)
    (hjson : r.jsonBody = some data) (hreply : extractReply data = .ok reply) :
    usageOf (handler (postReq s) outcomes) = some (usageValue data) ∧
    (∀ u, getField data "usage" = some u → truthy u = true → usageValue data = u) ∧
    (∀ u, getField data "usage" = some u → truthy u = false →
      usageValue data = JsValue.null) ∧
    (getField data "usage" = none → usageValue data = JsValue.null) := by
  have hfetch := fetchWithRetry_first_ok outcomes r h0 hok 2
  refine ⟨?_, ?_, ?_, ?_⟩
  · rw [handler_post_eq s outcomes hs]
    simp [handleMessage, hfetch, hok, hjson, hreply, usageOf, getField, lookupField]
  · intro u hu htruthy
    simp [usageValue, hu, htruthy]
  · intro u hu htruthy
    simp [usageValue, hu, htruthy]
  · intro hu
    simp [usageValue, hu]

/-- C10 amended witness data: a truthy `usage` object is passed through. -/
def w10data : JsValue :=
  .obj [("choices", .arr [.obj [("message", .obj [("content", .str "Hello")])]]),
        ("usage", .obj [("total_tokens", .num 42)])]

def w10resp : UpstreamResponse :=
  { status := 200, bodyText := "", jsonBody := some w10data }

def w10outcomes : Nat → FetchOutcome := fun _ => .success w10resp

theorem usage_always_present_witness :
    usageOf (handler (postReq "hi") w10outcomes) =
      some (JsValue.obj [("total_tokens", JsValue.num 42)]) ∧
    usageValue w10data = JsValue.obj [("total_tokens", JsValue.num 42)] := by
  have h := usage_always_present w10outcomes "hi" w10resp w10data "Hello"
    (by decide) rfl rfl rfl (by rfl)
  have hv : usageValue w10data = JsValue.obj [("total_tokens", JsValue.num 42)] :=
    h.2.1 (JsValue.obj [("total_tokens", JsValue.num 42)]) rfl rfl
  exact ⟨hv ▸ h.1, hv⟩

end AiProxy
